import Mathlib

/-!
Shallow embedding of the attempt-lifecycle / grading engine of the
Examoraa exam-system backend (Express + Mongoose, `src/unnamed/part_000`).

Conventions of the embedding:
* MongoDB ObjectIds are modelled as `Nat` identities.
* JavaScript `Date` values are modelled as `Nat` millisecond timestamps.
* Mongoose `Mixed` answer values are modelled by their JavaScript string
  conversion (`String(x)`), since the grading code only ever uses
  `String(ans.answer)`.
* JavaScript string operations (`toLowerCase`, `trim`, `split`, `includes`)
  are modelled character-exactly for ASCII data via `List Char` helpers.
* `Math.round` on the non-negative quotients appearing in the code is
  modelled by exact integer arithmetic (`mathRound`), with a proved bridge
  to the rational `⌊x + 1/2⌋` formulation.
* HTTP error responses are modelled by the error taxonomy used by the
  routes: 404 → `notFound`, 403 → `forbidden`, 400 on a lifecycle-state
  check → `invalidState`, 400 on a duplicate attempt → `conflict`.
-/

deriving instance DecidableEq for Except

namespace Examoraa

/-! ### JavaScript string primitives (ASCII fragment) -/

/-- Characters removed by JavaScript `String.prototype.trim` (ASCII part). -/
def jsWhitespace (c : Char) : Bool :=
  c == ' ' || c == '\t' || c == '\n' || c == '\r' || c == '\x0b' || c == '\x0c'

/-- `trim`: drop leading and trailing whitespace. -/
def trimChars (l : List Char) : List Char :=
  ((l.dropWhile jsWhitespace).reverse.dropWhile jsWhitespace).reverse

/-- `s.toLowerCase().trim()` as used by the auto-grading loop. -/
def lowerTrim (s : String) : List Char :=
  trimChars (s.toList.map Char.toLower)

/-- `t` starts with `p`. -/
def leadsWith : List Char → List Char → Bool
  | [], _ => true
  | _ :: _, [] => false
  | p :: ps, c :: cs => p == c && leadsWith ps cs

/-- JavaScript `s.includes(p)`: `p` occurs as a contiguous substring of `s`. -/
def occursIn (p : List Char) : List Char → Bool
  | [] => leadsWith p []
  | c :: cs => leadsWith p (c :: cs) || occursIn p cs

/-- JavaScript `s.split(sep)` for a one-character separator class: split at
every character satisfying `p`, keeping empty fragments (as JS does). -/
def splitPred (p : Char → Bool) : List Char → List (List Char)
  | [] => [[]]
  | c :: cs =>
    if p c then [] :: splitPred p cs
    else
      match splitPred p cs with
      | [] => [[c]]
      | t :: ts => (c :: t) :: ts

/-- `Math.round (n / d)` for natural `n`, `d > 0`:
`⌊n/d + 1/2⌋ = (2*n + d) / (2*d)` in integer division. -/
def mathRound (n d : Nat) : Nat := (2 * n + d) / (2 * d)

/-- `DEFAULT_TAB_SWITCH_LIMIT` from the server configuration (env default 3). -/
def DEFAULT_TAB_SWITCH_LIMIT : Nat := 3

/-! ### Data model (Mongoose schemas) -/

/-- `questionSchema.type` enum. -/
inductive QType
  | multiple_choice
  | true_false
  | short_answer
deriving DecidableEq

/-- `questionSchema`. -/
structure Question where
  qid : Nat
  qtype : QType
  questionText : String
  options : List String
  correctAnswer : String
  marks : Nat
  explanation : Option String
deriving DecidableEq

/-- `examSchema.antiCheatSettings`. -/
structure AntiCheatSettings where
  webcamRequired : Bool
  tabSwitchLimit : Nat
  screenshotDetection : Bool
  fullScreenRequired : Bool
  copyPasteBlocked : Bool
  devToolsBlocked : Bool
deriving DecidableEq

/-- `examSchema`. -/
structure Exam where
  eid : Nat
  title : String
  subject : String
  description : Option String
  instructor : Nat
  duration : Nat
  totalMarks : Nat
  passingMarks : Nat
  startTime : Option Nat
  endTime : Option Nat
  questions : List Question
  antiCheatSettings : AntiCheatSettings
  isPublished : Bool
  allowMultipleAttempts : Bool
deriving DecidableEq

/-- `answerSchema` (an entry of `attempt.answers`). -/
structure Answer where
  questionId : Nat
  answer : String
  isCorrect : Option Bool
  marksAwarded : Nat
  timeSpent : Option Nat
deriving DecidableEq

/-- `violationSchema` (an entry of `attempt.violations`). -/
structure Violation where
  vtype : String
  description : String
  severity : String
  timestamp : Nat
deriving DecidableEq

/-- `attemptSchema.status` enum. -/
inductive AStatus
  | in_progress
  | submitted
  | auto_submitted
  | flagged
  | cancelled
deriving DecidableEq

/-- `attemptSchema`. -/
structure Attempt where
  aid : Nat
  exam : Nat
  student : Nat
  startedAt : Nat
  submittedAt : Option Nat
  timeSpent : Option Nat
  answers : List Answer
  score : Nat
  totalMarks : Nat
  percentage : Nat
  passed : Bool
  violations : List Violation
  tabSwitches : Nat
  webcamSnapshots : List (String × Nat)
  status : AStatus
  flagged : Bool
  flagReason : Option String
deriving DecidableEq

/-- Error taxonomy of the route handlers. -/
inductive ApiError
  | notFound
  | forbidden
  | invalidState
  | conflict
deriving DecidableEq

/-- Caller role from the JWT (`req.user.role`). -/
inductive Role
  | student
  | instructor
  | admin
deriving DecidableEq

/-! ### Grading engine (`POST /api/attempts/:id/submit`, lines 559–579) -/

/-- `exam.questions.id(ans.questionId)`: look up a question by identity. -/
def findQuestion (qs : List Question) (qid : Nat) : Option Question :=
  qs.find? (fun q => q.qid == qid)

/-- Multiple-choice / true-false correctness:
`String(ans.answer).toLowerCase().trim() === String(question.correctAnswer).toLowerCase().trim()`. -/
def gradeMC (submitted correct : String) : Bool :=
  lowerTrim submitted == lowerTrim correct

/-- Short-answer correctness:
`student === correct || correct.split(' ').every(w => student.includes(w))`
where both sides have been `String(...).toLowerCase().trim()`-normalised.
Note the split is on the single space character `' '`. -/
def gradeShort (submitted correct : String) : Bool :=
  let c := lowerTrim correct
  let s := lowerTrim submitted
  s == c || (splitPred (fun ch => ch == ' ') c).all (fun w => occursIn w s)

/-- One iteration of the auto-grading loop: set `isCorrect` and
`marksAwarded` on the answer; an answer whose question is missing is
skipped (`continue`) and left untouched. -/
def gradeOne (exam : Exam) (ans : Answer) : Answer :=
  match findQuestion exam.questions ans.questionId with
  | none => ans
  | some q =>
    match q.qtype with
    | .multiple_choice | .true_false =>
      let ic := gradeMC ans.answer q.correctAnswer
      { ans with isCorrect := some ic, marksAwarded := if ic then q.marks else 0 }
    | .short_answer =>
      let ic := gradeShort ans.answer q.correctAnswer
      { ans with isCorrect := some ic, marksAwarded := if ic then q.marks else 0 }

/-- The contribution of one answer to `totalScore`
(`totalScore += ans.marksAwarded` runs only when the question was found). -/
def awardedMarks (exam : Exam) (ans : Answer) : Nat :=
  match findQuestion exam.questions ans.questionId with
  | none => 0
  | some _ => (gradeOne exam ans).marksAwarded

/-- `totalScore` accumulated over the answer list. -/
def gradeScore (exam : Exam) (answers : List Answer) : Nat :=
  (answers.map (awardedMarks exam)).sum

/-- `exam.totalMarks > 0 ? Math.round((totalScore / exam.totalMarks) * 100) : 0`.
`(s/t)*100` equals `(s*100)/t` as an exact rational. -/
def computePercentage (score totalMarks : Nat) : Nat :=
  if totalMarks > 0 then mathRound (score * 100) totalMarks else 0

/-- `exam.antiCheatSettings?.tabSwitchLimit || DEFAULT_TAB_SWITCH_LIMIT`:
a configured limit of `0` is falsy in JavaScript, so the default applies. -/
def effectiveTabLimit (e : Exam) : Nat :=
  if e.antiCheatSettings.tabSwitchLimit = 0 then DEFAULT_TAB_SWITCH_LIMIT
  else e.antiCheatSettings.tabSwitchLimit

/-- The same expression when the exam lookup may have failed
(`exam?.antiCheatSettings?.tabSwitchLimit || DEFAULT_TAB_SWITCH_LIMIT`). -/
def tabLimitOf (exam? : Option Exam) : Nat :=
  match exam? with
  | none => DEFAULT_TAB_SWITCH_LIMIT
  | some e => effectiveTabLimit e

/-- Flag reason written by the violation route:
`Auto-flagged: ${attempt.violations.length} violations`. -/
def violationFlagReason (count : Nat) : String :=
  "Auto-flagged: " ++ toString count ++ " violations"

/-- Flag reason written by the submit route:
`Exceeded violation limit: ${...} violations, ${...} tab switches`. -/
def submitFlagReason (violationCount tabSwitchCount : Nat) : String :=
  "Exceeded violation limit: " ++ toString violationCount ++ " violations, " ++
    toString tabSwitchCount ++ " tab switches"

/-! ### Operations (route handlers) -/

/-- `attempt.answers[i].answer = answer`: replace only the `answer` field of
the entry at index `i`. -/
def setAnswerValueAt : List Answer → Nat → String → List Answer
  | [], _, _ => []
  | x :: xs, 0, v => { x with answer := v } :: xs
  | x :: xs, Nat.succ n, v => x :: setAnswerValueAt xs n v

/-- `POST /api/attempts/:id/answer` (lines 519–546), acting on the attempt
found by id.  Owner check, then lifecycle check, then upsert of the answer
keyed by question id (`findIndex` + in-place update of the first match,
else push). -/
def recordAnswer (a : Attempt) (callerId questionId : Nat) (value : String) :
    Except ApiError Attempt :=
  if a.student ≠ callerId then .error .forbidden
  else if a.status ≠ .in_progress then .error .invalidState
  else
    match a.answers.findIdx? (fun x => x.questionId == questionId) with
    | some i => .ok { a with answers := setAnswerValueAt a.answers i value }
    | none =>
      .ok { a with answers :=
        a.answers ++ [{ questionId := questionId, answer := value,
                        isCorrect := none, marksAwarded := 0, timeSpent := none }] }

/-- Counters returned by the violation route. -/
structure ViolationResult where
  totalViolations : Nat
  tabSwitches : Nat
  flagged : Bool
deriving DecidableEq

/-- `POST /api/attempts/:id/violation` (lines 631–673), acting on the
attempt found by id.  Lifecycle check (no owner check in the route), append
the violation, bump `tabSwitches` on `tab_switch`, then auto-flag when the
new ledger size reaches twice the effective tab-switch limit. -/
def recordViolation (exam? : Option Exam) (a : Attempt)
    (vtype description : String) (severity? : Option String) (now : Nat) :
    Except ApiError (Attempt × ViolationResult) :=
  if a.status ≠ .in_progress then .error .invalidState
  else
    let sev := match severity? with
      | none => "medium"
      | some s => if s = "" then "medium" else s
    let v : Violation := { vtype := vtype, description := description,
                           severity := sev, timestamp := now }
    let a1 := { a with violations := a.violations ++ [v] }
    let a2 := if vtype = "tab_switch" then { a1 with tabSwitches := a1.tabSwitches + 1 }
              else a1
    let tabLimit := tabLimitOf exam?
    let a3 := if a2.violations.length ≥ tabLimit * 2 then
                { a2 with flagged := true,
                          flagReason := some (violationFlagReason a2.violations.length) }
              else a2
    .ok (a3, { totalViolations := a3.violations.length,
               tabSwitches := a3.tabSwitches, flagged := a3.flagged })

/-- Response body of the submit route. -/
structure SubmitResult where
  score : Nat
  totalMarks : Nat
  percentage : Nat
  passed : Bool
  flagged : Bool
deriving DecidableEq

/-- `POST /api/attempts/:id/submit` (lines 549–628), acting on the attempt
found by id.  Owner check, lifecycle check, exam lookup, auto-grading,
score / percentage / pass / timestamps / status update, then the
submit-time flag check against the effective tab-switch limit. -/
def submitAttempt (exam? : Option Exam) (a : Attempt) (callerId : Nat)
    (autoSubmit : Bool) (now : Nat) :
    Except ApiError (Attempt × SubmitResult) :=
  if a.student ≠ callerId then .error .forbidden
  else if a.status ≠ .in_progress then .error .invalidState
  else
    match exam? with
    | none => .error .notFound
    | some exam =>
      let graded := a.answers.map (gradeOne exam)
      let totalScore := gradeScore exam a.answers
      let percentage := computePercentage totalScore exam.totalMarks
      let passed := decide (totalScore ≥ exam.passingMarks)
      let newStatus := if autoSubmit then AStatus.auto_submitted else AStatus.submitted
      let tabLimit := effectiveTabLimit exam
      let fire := a.tabSwitches ≥ tabLimit ∨ a.violations.length ≥ tabLimit
      let a' : Attempt :=
        { a with
          answers := graded,
          score := totalScore,
          percentage := percentage,
          passed := passed,
          submittedAt := some now,
          timeSpent := some (mathRound (now - a.startedAt) 1000),
          status := newStatus,
          flagged := if fire then true else a.flagged,
          flagReason := if fire then
              some (submitFlagReason a.violations.length a.tabSwitches)
            else a.flagReason }
      .ok (a', { score := totalScore, totalMarks := exam.totalMarks,
                 percentage := percentage, passed := passed, flagged := a'.flagged })

/-- `POST /api/attempts/:id/snapshot` (lines 676–702), acting on the
attempt found by id: push a snapshot reference when a URL was produced.
No owner or lifecycle check exists in this route. -/
def saveSnapshot (a : Attempt) (url : String) (now : Nat) :
    Except ApiError Attempt :=
  if url = "" then .ok a
  else .ok { a with webcamSnapshots := a.webcamSnapshots ++ [(url, now)] }

/-- Question as sanitised for students by the start route:
`{ _id, type, questionText, options, marks }` — no `correctAnswer`,
no `explanation`. -/
structure SanitizedQuestion where
  qid : Nat
  qtype : QType
  questionText : String
  options : List String
  marks : Nat
deriving DecidableEq

/-- The per-question sanitisation map of the start route. -/
def sanitizeQuestion (q : Question) : SanitizedQuestion :=
  { qid := q.qid, qtype := q.qtype, questionText := q.questionText,
    options := q.options, marks := q.marks }

/-- `exam.toObject()` with `questions` replaced by their sanitised forms. -/
structure SanitizedExam where
  base : Exam
  questions : List SanitizedQuestion
deriving DecidableEq

/-- Sanitised exam returned by the start route. -/
def sanitizeExam (e : Exam) : SanitizedExam :=
  { base := e, questions := e.questions.map sanitizeQuestion }

/-- `POST /api/exams/:id/start` (lines 449–516) over a store of attempts.
Publication and time-window checks, then the existing-attempt branch when
retakes are disallowed (`findOne` over non-cancelled attempts of the
(exam, student) pair, modelled as first match in the store), else creation
of a fresh `in_progress` attempt appended to the store. -/
def startAttempt (db : List Attempt) (exam? : Option Exam)
    (studentId now newId : Nat) :
    Except ApiError (List Attempt × Attempt × SanitizedExam) :=
  match exam? with
  | none => .error .notFound
  | some exam =>
    if exam.isPublished = false then .error .invalidState
    else if (match exam.startTime with | some t => decide (now < t) | none => false) then
      .error .invalidState
    else if (match exam.endTime with | some t => decide (now > t) | none => false) then
      .error .invalidState
    else
      let fresh : Attempt :=
        { aid := newId, exam := exam.eid, student := studentId,
          startedAt := now, submittedAt := none, timeSpent := none,
          answers := [], score := 0, totalMarks := exam.totalMarks,
          percentage := 0, passed := false, violations := [],
          tabSwitches := 0, webcamSnapshots := [],
          status := .in_progress, flagged := false, flagReason := none }
      if exam.allowMultipleAttempts then
        .ok (db ++ [fresh], fresh, sanitizeExam exam)
      else
        match db.find? (fun x =>
            x.exam == exam.eid && x.student == studentId &&
            !(x.status == AStatus.cancelled)) with
        | some existing =>
          if existing.status = .in_progress then
            .ok (db, existing, sanitizeExam exam)
          else .error .conflict
        | none => .ok (db ++ [fresh], fresh, sanitizeExam exam)

/-- Exam as populated into the attempt by `GET /api/attempts/:id`:
`populate('exam', 'title subject duration totalMarks passingMarks questions antiCheatSettings')`
— the `questions` array is included in full, `correctAnswer` and
`explanation` are not filtered out. -/
structure PopulatedExam where
  title : String
  subject : String
  duration : Nat
  totalMarks : Nat
  passingMarks : Nat
  questions : List Question
  antiCheatSettings : AntiCheatSettings
deriving DecidableEq

/-- The field selection applied by `populate`. -/
def populateExam (e : Exam) : PopulatedExam :=
  { title := e.title, subject := e.subject, duration := e.duration,
    totalMarks := e.totalMarks, passingMarks := e.passingMarks,
    questions := e.questions, antiCheatSettings := e.antiCheatSettings }

/-- `GET /api/attempts/:id` (lines 705–722): students may only read their
own attempts; the response is the attempt with its populated exam. -/
def getAttempt (a? : Option Attempt) (exam? : Option Exam)
    (callerId : Nat) (role : Role) :
    Except ApiError (Attempt × Option PopulatedExam) :=
  match a? with
  | none => .error .notFound
  | some a =>
    if role = Role.student ∧ a.student ≠ callerId then .error .forbidden
    else .ok (a, exam?.map populateExam)

/-- A request against one attempt, abstracting over the four
attempt-mutating routes. -/
inductive AttemptOp
  | answer (callerId questionId : Nat) (value : String)
  | violation (exam? : Option Exam) (vtype description : String)
      (severity? : Option String) (now : Nat)
  | submit (exam? : Option Exam) (callerId : Nat) (autoSubmit : Bool) (now : Nat)
  | snapshot (url : String) (now : Nat)

/-- The attempt produced by one attempt-mutating route (auxiliary response
data dropped). -/
def applyOnAttempt : AttemptOp → Attempt → Except ApiError Attempt
  | .answer c q v, a => recordAnswer a c q v
  | .violation e t d s n, a => Except.map Prod.fst (recordViolation e a t d s n)
  | .submit e c au n, a => Except.map Prod.fst (submitAttempt e a c au n)
  | .snapshot u n, a => saveSnapshot a u n

/-- Run an attempt-mutating route against a store: find the attempt by id
(`findById`), apply the handler, and persist the result (`attempt.save()`)
only on success.  An error response leaves the store untouched. -/
def runOnStore (db : List Attempt) (aid : Nat)
    (f : Attempt → Except ApiError Attempt) :
    List Attempt × Except ApiError Unit :=
  match db.find? (fun x => x.aid == aid) with
  | none => (db, .error .notFound)
  | some a =>
    match f a with
    | .error e => (db, .error e)
    | .ok a' => (db.map (fun x => if x.aid == aid then a' else x), .ok ())

/-! ### Spec-side definitions (for refinement comparison) -/

/-- Modelled from the spec's wording for short-answer grading: the
whitespace-delimited tokens of a character list (empty fragments dropped,
any whitespace character separates). -/
def tokensWS (l : List Char) : List (List Char) :=
  (splitPred jsWhitespace l).filter (fun t => !t.isEmpty)

/-- Modelled from the spec's wording (§4.2): a short answer is correct iff
the trimmed lowercase submission equals the trimmed lowercase expected
answer, or every whitespace-delimited token of the expected answer occurs
as a substring of the submission. -/
def specShortCorrect (submitted correct : String) : Bool :=
  let c := lowerTrim correct
  let s := lowerTrim submitted
  s == c || (tokensWS c).all (fun w => occursIn w s)

/-! ### Inversion lemmas for the operations -/

/-- A successful submit implies the owner and lifecycle checks passed, and
characterises every stored field of the updated attempt and the response. -/
theorem submit_ok_elim {exam? : Option Exam} {a : Attempt} {c : Nat} {auto : Bool}
    {now : Nat} {a' : Attempt} {r : SubmitResult}
    (h : submitAttempt exam? a c auto now = .ok (a', r)) :
    ∃ exam, exam? = some exam ∧ a.student = c ∧ a.status = .in_progress ∧
      a'.answers = a.answers.map (gradeOne exam) ∧
      a'.score = gradeScore exam a.answers ∧
      a'.percentage = computePercentage (gradeScore exam a.answers) exam.totalMarks ∧
      a'.passed = decide (gradeScore exam a.answers ≥ exam.passingMarks) ∧
      a'.submittedAt = some now ∧
      a'.status = (if auto then AStatus.auto_submitted else AStatus.submitted) ∧
      a'.flagged = (if a.tabSwitches ≥ effectiveTabLimit exam ∨
          a.violations.length ≥ effectiveTabLimit exam then true else a.flagged) ∧
      a'.flagReason = (if a.tabSwitches ≥ effectiveTabLimit exam ∨
          a.violations.length ≥ effectiveTabLimit exam then
          some (submitFlagReason a.violations.length a.tabSwitches)
        else a.flagReason) ∧
      a'.student = a.student ∧ a'.violations = a.violations ∧
      a'.tabSwitches = a.tabSwitches ∧ a'.totalMarks = a.totalMarks ∧
      r = { score := gradeScore exam a.answers, totalMarks := exam.totalMarks,
            percentage := computePercentage (gradeScore exam a.answers) exam.totalMarks,
            passed := decide (gradeScore exam a.answers ≥ exam.passingMarks),
            flagged := a'.flagged } := by
  unfold submitAttempt at h
  by_cases h1 : a.student ≠ c
  · simp [h1] at h
  push_neg at h1
  by_cases h2 : a.status ≠ AStatus.in_progress
  · simp [h1, h2] at h
  push_neg at h2
  cases hexam : exam? with
  | none => rw [hexam] at h; simp [h1, h2] at h
  | some exam =>
    rw [hexam] at h
    simp [h1, h2] at h
    obtain ⟨ha, hr⟩ := h
    refine ⟨exam, rfl, h1, h2, ?_⟩
    subst ha
    subst hr
    by_cases h4 : a.tabSwitches ≥ effectiveTabLimit exam ∨
        a.violations.length ≥ effectiveTabLimit exam <;>
      simp [h4, h1, ge_iff_le]

/-- A successful violation append implies the lifecycle check passed, and
characterises the ledger, the counter, and the flag fields afterwards. -/
theorem violation_ok_elim {exam? : Option Exam} {a : Attempt} {vt d : String}
    {sv : Option String} {now : Nat} {a' : Attempt} {r : ViolationResult}
    (h : recordViolation exam? a vt d sv now = .ok (a', r)) :
    a.status = .in_progress ∧
    a'.violations = a.violations ++
      [{ vtype := vt, description := d,
         severity := (match sv with
           | none => "medium"
           | some s => if s = "" then "medium" else s),
         timestamp := now }] ∧
    a'.tabSwitches = (if vt = "tab_switch" then a.tabSwitches + 1 else a.tabSwitches) ∧
    a'.flagged = (if a.violations.length + 1 ≥ tabLimitOf exam? * 2 then true
      else a.flagged) ∧
    a'.flagReason = (if a.violations.length + 1 ≥ tabLimitOf exam? * 2 then
        some (violationFlagReason (a.violations.length + 1)) else a.flagReason) ∧
    a'.answers = a.answers ∧ a'.score = a.score ∧ a'.percentage = a.percentage ∧
    a'.status = a.status ∧ a'.student = a.student := by
  unfold recordViolation at h
  by_cases h1 : a.status ≠ AStatus.in_progress
  · simp [h1] at h
  push_neg at h1
  rw [if_neg (by simp [h1])] at h
  simp only [Except.ok.injEq, Prod.mk.injEq] at h
  obtain ⟨ha, hr⟩ := h
  subst ha
  refine ⟨h1, ?_⟩
  by_cases h4 : a.violations.length + 1 ≥ tabLimitOf exam? * 2 <;>
    by_cases h3 : vt = "tab_switch" <;>
      simp [h3, h4, List.length_append, ge_iff_le] <;>
        (cases sv <;> rfl)

/-- A successful violation append returns the updated counters. -/
theorem violation_ok_response {exam? : Option Exam} {a : Attempt} {vt d : String}
    {sv : Option String} {now : Nat} {a' : Attempt} {r : ViolationResult}
    (h : recordViolation exam? a vt d sv now = .ok (a', r)) :
    r = { totalViolations := a'.violations.length, tabSwitches := a'.tabSwitches,
          flagged := a'.flagged } := by
  unfold recordViolation at h
  by_cases h1 : a.status ≠ AStatus.in_progress
  · simp [h1] at h
  push_neg at h1
  rw [if_neg (by simp [h1])] at h
  simp only [Except.ok.injEq, Prod.mk.injEq] at h
  obtain ⟨ha, hr⟩ := h
  subst ha
  subst hr
  rfl

/-- A successful answer save implies the owner and lifecycle checks passed
and changes nothing but the answer list. -/
theorem answer_ok_elim {a : Attempt} {c q : Nat} {v : String} {a' : Attempt}
    (h : recordAnswer a c q v = .ok a') :
    a.student = c ∧ a.status = .in_progress ∧
    a'.student = a.student ∧ a'.status = a.status ∧ a'.flagged = a.flagged ∧
    a'.violations = a.violations ∧ a'.score = a.score ∧
    a'.percentage = a.percentage := by
  unfold recordAnswer at h
  by_cases h1 : a.student ≠ c
  · simp [h1] at h
  push_neg at h1
  by_cases h2 : a.status ≠ AStatus.in_progress
  · simp [h1, h2] at h
  push_neg at h2
  refine ⟨h1, h2, ?_⟩
  rw [if_neg (by simp [h1]), if_neg (by simp [h2])] at h
  cases hidx : a.answers.findIdx? (fun x => x.questionId == q) <;>
    rw [hidx] at h <;> simp only [Except.ok.injEq] at h <;> subst h <;> simp

/-- A snapshot save changes nothing but the snapshot list. -/
theorem snapshot_ok_elim {a : Attempt} {u : String} {n : Nat} {a' : Attempt}
    (h : saveSnapshot a u n = .ok a') :
    a'.student = a.student ∧ a'.status = a.status ∧ a'.flagged = a.flagged := by
  unfold saveSnapshot at h
  by_cases h1 : u = "" <;> simp [h1] at h <;> subst h <;> simp

/-! ### Arithmetic and string bridges -/

/-- `mathRound` is exactly `⌊n/d + 1/2⌋` over ℚ, i.e. `Math.round (n/d)`
for non-negative arguments. -/
theorem mathRound_eq_floor (n d : Nat) (hd : 0 < d) :
    mathRound n d = ⌊(n : ℚ) / d + 1 / 2⌋₊ := by
  have hd0 : (d : ℚ) ≠ 0 := Nat.cast_ne_zero.mpr hd.ne'
  have h1 : ((n : ℚ) / d + 1 / 2) = ((2 * n + d : Nat) : ℚ) / ((2 * d : Nat) : ℚ) := by
    push_cast
    field_simp
    ring
  rw [mathRound, h1, Nat.floor_div_eq_div]

/-- The two flag-reason templates can never produce the same string. -/
theorem submitReason_ne_violationReason (v t k : Nat) :
    submitFlagReason v t ≠ violationFlagReason k := by
  intro h
  have h2 := congrArg String.data h
  simp only [submitFlagReason, violationFlagReason, String.data_append] at h2
  have h3 : ('E' :: "xceeded violation limit: ".data) ++ (toString v).data ++
      " violations, ".data ++ (toString t).data ++ " tab switches".data
      = ('A' :: "uto-flagged: ".data) ++ (toString k).data ++ " violations".data := h2
  simp [List.cons_append] at h3

/-- `find?` returns the unique element satisfying the predicate. -/
theorem find?_unique {α : Type} (p : α → Bool) (l : List α) (a : α)
    (ha : a ∈ l) (hpa : p a = true)
    (huniq : ∀ b ∈ l, p b = true → b = a) : l.find? p = some a := by
  induction l with
  | nil => cases ha
  | cons x xs ih =>
    by_cases hx : p x = true
    · have hxa : x = a := huniq x (by simp) hx
      subst hxa
      simp [List.find?, hx]
    · have hax : a ≠ x := fun he => hx (he ▸ hpa)
      have ha' : a ∈ xs := by
        rcases List.mem_cons.mp ha with h | h
        · exact absurd h hax
        · exact h
      have ih' := ih ha' (fun b hb hpb => huniq b (List.mem_cons_of_mem _ hb) hpb)
      simp [List.find?, hx, ih']

/-- The empty string is a substring of everything (JS `includes('')`). -/
theorem occursIn_nil (s : List Char) : occursIn [] s = true := by
  cases s <;> simp [occursIn, leadsWith]

/-- Splitting is determined by the predicate's values on the list. -/
theorem splitPred_congr (p q : Char → Bool) (l : List Char)
    (hpq : ∀ c ∈ l, p c = q c) : splitPred p l = splitPred q l := by
  induction l with
  | nil => rfl
  | cons c cs ih =>
    have hc := hpq c (by simp)
    have ht := ih (fun x hx => hpq x (by simp [hx]))
    simp only [splitPred, hc, ht]

/-- Empty fragments are vacuous for an `all` whose test accepts `[]`. -/
theorem all_eq_all_filter (l : List (List Char)) (f : List Char → Bool)
    (hf : f [] = true) :
    l.all f = ((l.filter (fun t => !t.isEmpty)).all f) := by
  induction l with
  | nil => rfl
  | cons t ts ih =>
    by_cases ht : t.isEmpty
    · have ht' : t = [] := by cases t <;> simp_all
      subst ht'
      simp [List.filter, hf, ih]
    · simp [List.filter, ht, ih]

/-- When the normalised expected answer contains no whitespace other than
plain spaces, the code's space-split containment test agrees with the
spec's whitespace-token containment test. -/
theorem gradeShort_eq_spec (s c : String)
    (hws : ∀ ch ∈ lowerTrim c, jsWhitespace ch = true → ch = ' ') :
    gradeShort s c = specShortCorrect s c := by
  have hsplit : splitPred (fun ch => ch == ' ') (lowerTrim c) =
      splitPred jsWhitespace (lowerTrim c) := by
    apply splitPred_congr
    intro ch hch
    show (ch == ' ') = jsWhitespace ch
    by_cases h : jsWhitespace ch = true
    · rw [hws ch hch h]
      decide
    · have hf : jsWhitespace ch = false := by
        cases hjw : jsWhitespace ch
        · rfl
        · exact absurd hjw h
      cases hb : (ch == ' ')
      · rw [hf]
      · have he : ch = ' ' := beq_iff_eq.mp hb
        subst he
        simp [jsWhitespace] at hf
  show (lowerTrim s == lowerTrim c ||
      (splitPred (fun ch => ch == ' ') (lowerTrim c)).all
        (fun w => occursIn w (lowerTrim s))) =
    (lowerTrim s == lowerTrim c ||
      (tokensWS (lowerTrim c)).all (fun w => occursIn w (lowerTrim s)))
  rw [hsplit, all_eq_all_filter _ _ (occursIn_nil (lowerTrim s))]
  rfl

/-! ### Concrete data for witnesses and counterexamples -/

/-- Multiple-choice question from the spec's worked example (§8). -/
def exQ1 : Question := ⟨1, .multiple_choice, "q1", ["A", "B", "C"], "B", 2, none⟩

/-- True/false question from the spec's worked example (§8). -/
def exQ2 : Question := ⟨2, .true_false, "q2", [], "True", 3, none⟩

/-- Anti-cheat settings with the default tab-switch limit 3. -/
def acs0 : AntiCheatSettings := ⟨true, 3, true, true, true, true⟩

/-- The worked-example exam: totalMarks 5, passingMarks 3. -/
def ex0 : Exam :=
  ⟨10, "t", "s", none, 99, 60, 5, 3, none, none, [exQ1, exQ2], acs0, true, false⟩

/-- Case-insensitive correct answer for `exQ1`. -/
def ans1 : Answer := ⟨1, "b", none, 0, none⟩

/-- Incorrect answer for `exQ2`. -/
def ans2 : Answer := ⟨2, "False", none, 0, none⟩

/-- An in-progress attempt at `ex0` holding both answers. -/
def att0 : Attempt :=
  ⟨100, 10, 7, 0, none, none, [ans1, ans2], 0, 5, 0, false, [], 0, [],
   .in_progress, false, none⟩

/-- The attempt stored after submitting `att0`. -/
def att0s : Attempt :=
  ⟨100, 10, 7, 0, some 1000, some 1,
   [⟨1, "b", some true, 2, none⟩, ⟨2, "False", some false, 0, none⟩],
   2, 5, 40, false, [], 0, [], .submitted, false, none⟩

/-- The response returned for that submission. -/
def res0s : SubmitResult := ⟨2, 5, 40, false, false⟩

/-- An empty published exam used by lifecycle witnesses. -/
def exW : Exam := ⟨10, "t", "s", none, 99, 60, 0, 1, none, none, [], acs0, true, false⟩

/-- A terminal (submitted) attempt. -/
def attSub : Attempt :=
  ⟨100, 10, 7, 0, none, none, [], 0, 0, 0, false, [], 0, [], .submitted, false, none⟩

/-- A fresh in-progress attempt at `exW`. -/
def attIP : Attempt :=
  ⟨100, 10, 7, 0, none, none, [], 0, 0, 0, false, [], 0, [], .in_progress, false, none⟩

/-- The attempt stored after submitting `attIP`. -/
def attIPs : Attempt :=
  ⟨100, 10, 7, 0, some 0, some 0, [], 0, 0, 0, false, [], 0, [], .submitted, false, none⟩

/-- The response returned for that submission. -/
def resIPs : SubmitResult := ⟨0, 0, 0, false, false⟩

/-! ### C1 -/

/-- C1: once an attempt is in a terminal status (submitted, auto-submitted
or cancelled), RecordAnswer, RecordViolation and SubmitAttempt each fail
with InvalidState and leave the stored attempt (answers, violations, score,
percentage, status, flag) unchanged; in particular a second SubmitAttempt
after a successful one always fails with InvalidState and never re-grades. -/
theorem terminal_attempt_ops_fail (db : List Attempt) (a : Attempt)
    (callerId qid : Nat) (v : String) (exv? exs? : Option Exam)
    (vt dsc : String) (sv : Option String) (auto : Bool) (now1 now2 : Nat)
    (hfind : db.find? (fun x => x.aid == a.aid) = some a)
    (hterm : a.status = .submitted ∨ a.status = .auto_submitted ∨
      a.status = .cancelled)
    (hcaller : callerId = a.student) :
    runOnStore db a.aid (fun x => recordAnswer x callerId qid v) =
      (db, .error .invalidState) ∧
    runOnStore db a.aid
        (fun x => Except.map Prod.fst (recordViolation exv? x vt dsc sv now1)) =
      (db, .error .invalidState) ∧
    runOnStore db a.aid
        (fun x => Except.map Prod.fst (submitAttempt exs? x callerId auto now2)) =
      (db, .error .invalidState) ∧
    (∀ (e1 e2 : Option Exam) (a0 a1 : Attempt) (r1 : SubmitResult)
        (c : Nat) (au1 au2 : Bool) (n1 n2 : Nat),
      submitAttempt e1 a0 c au1 n1 = .ok (a1, r1) →
      submitAttempt e2 a1 c au2 n2 = .error .invalidState) := by
  have hstat : a.status ≠ .in_progress := by
    rcases hterm with h | h | h <;> simp [h]
  subst hcaller
  refine ⟨?_, ?_, ?_, ?_⟩
  · unfold runOnStore
    rw [hfind]
    simp [recordAnswer, hstat]
  · unfold runOnStore
    rw [hfind]
    simp [recordViolation, hstat, Except.map]
  · unfold runOnStore
    rw [hfind]
    simp [submitAttempt, hstat, Except.map]
  · intro e1 e2 a0 a1 r1 c au1 au2 n1 n2 h
    obtain ⟨exam, _, hc, _, _, _, _, _, _, hst1, _, _, hstu1, _⟩ :=
      submit_ok_elim h
    have hst2 : a1.status ≠ AStatus.in_progress := by
      rw [hst1]
      cases au1 <;> simp
    have hstu2 : a1.student = c := by rw [hstu1, hc]
    simp [submitAttempt, hst2, hstu2]

/-- C1 witness: a concrete store with one submitted attempt, the three
request outcomes, and a concrete second submit after a successful first. -/
theorem terminal_attempt_ops_fail_witness :
    ([attSub].find? (fun x => x.aid == attSub.aid) = some attSub) ∧
    runOnStore [attSub] attSub.aid (fun x => recordAnswer x 7 1 "b") =
      ([attSub], .error .invalidState) ∧
    runOnStore [attSub] attSub.aid
        (fun x => Except.map Prod.fst (recordViolation (some exW) x "tab_switch" "d" none 1)) =
      ([attSub], .error .invalidState) ∧
    runOnStore [attSub] attSub.aid
        (fun x => Except.map Prod.fst (submitAttempt (some exW) x 7 false 2)) =
      ([attSub], .error .invalidState) ∧
    submitAttempt (some exW) attIP 7 false 0 = .ok (attIPs, resIPs) ∧
    submitAttempt (some exW) attIPs 7 false 3 = .error .invalidState := by
  have h := terminal_attempt_ops_fail [attSub] attSub 7 1 "b" (some exW)
    (some exW) "tab_switch" "d" none false 1 2 (by decide) (Or.inl rfl) rfl
  exact ⟨by decide, h.1, h.2.1, h.2.2.1, by decide,
    h.2.2.2 (some exW) (some exW) attIP attIPs resIPs 7 false false 0 3 (by decide)⟩

/-! ### C2 -/

/-- C2: a multiple-choice or true/false answer whose question exists in the
bank is marked correct exactly when the submitted value equals the
question's correct answer after string conversion, trimming and
lowercasing; it is awarded the full question marks when correct and 0
otherwise, never a fractional amount; and a successful submit stores
exactly these graded answers and their sum as the score. -/
theorem objective_grading_exact_match (exam : Exam) (q : Question) (ans : Answer)
    (hq : findQuestion exam.questions ans.questionId = some q)
    (ht : q.qtype = .multiple_choice ∨ q.qtype = .true_false) :
    (gradeOne exam ans).isCorrect =
      some (lowerTrim ans.answer == lowerTrim q.correctAnswer) ∧
    (gradeOne exam ans).marksAwarded =
      (if lowerTrim ans.answer == lowerTrim q.correctAnswer then q.marks else 0) ∧
    ((gradeOne exam ans).marksAwarded = 0 ∨
      (gradeOne exam ans).marksAwarded = q.marks) ∧
    awardedMarks exam ans = (gradeOne exam ans).marksAwarded ∧
    (∀ (att : Attempt) (c : Nat) (auto : Bool) (now : Nat)
        (a' : Attempt) (r : SubmitResult),
      submitAttempt (some exam) att c auto now = .ok (a', r) →
      a'.answers = att.answers.map (gradeOne exam) ∧
      a'.score = gradeScore exam att.answers) := by
  have hone : gradeOne exam ans =
      { ans with isCorrect := some (gradeMC ans.answer q.correctAnswer),
                 marksAwarded := if gradeMC ans.answer q.correctAnswer then q.marks else 0 } := by
    rcases ht with h | h <;> simp [gradeOne, hq, h]
  refine ⟨?_, ?_, ?_, ?_, ?_⟩
  · rw [hone]
    rfl
  · rw [hone]
    rfl
  · rw [hone]
    by_cases hic : gradeMC ans.answer q.correctAnswer <;> simp [hic]
  · unfold awardedMarks
    rw [hq]
  · intro att c auto now a' r h
    obtain ⟨exam2, hex2, _, _, hans, hsc, _⟩ := submit_ok_elim h
    obtain rfl : exam2 = exam := by
      injection hex2 with h2
      exact h2.symm
    exact ⟨hans, hsc⟩

/-- C2 witness: the spec's worked example, `"b"` against correct answer
`"B"` for a 2-mark multiple-choice question. -/
theorem objective_grading_exact_match_witness :
    (findQuestion ex0.questions ans1.questionId = some exQ1) ∧
    (gradeOne ex0 ans1).isCorrect =
      some (lowerTrim ans1.answer == lowerTrim exQ1.correctAnswer) ∧
    (gradeOne ex0 ans1).isCorrect = some true ∧
    (gradeOne ex0 ans1).marksAwarded = 2 :=
  ⟨by decide,
   (objective_grading_exact_match ex0 exQ1 ans1 (by decide) (Or.inl rfl)).1,
   by decide, by decide⟩

/-! ### C3 -/

/-- Short-answer question whose expected answer contains a tab character. -/
def qC3 : Question := ⟨1, .short_answer, "q", [], "a\tb", 4, none⟩

/-- Exam holding `qC3`. -/
def exC3 : Exam := ⟨13, "t", "s", none, 99, 60, 4, 2, none, none, [qC3], acs0, true, false⟩

/-- Submission containing every whitespace-delimited token of `"a\tb"`. -/
def ansC3 : Answer := ⟨1, "a b", none, 0, none⟩

/-- C3 counterexample: the code splits the expected answer on single-space
characters only, so for the expected answer `"a\tb"` (tab inside) and the
submission `"a b"`, every whitespace-delimited token of the expected answer
is a substring of the submission, yet the grader marks the answer incorrect
and awards 0 marks. -/
theorem short_answer_whitespace_counterexample :
    specShortCorrect ansC3.answer qC3.correctAnswer = true ∧
    gradeShort ansC3.answer qC3.correctAnswer = false ∧
    findQuestion exC3.questions ansC3.questionId = some qC3 ∧
    (gradeOne exC3 ansC3).isCorrect = some false ∧
    (gradeOne exC3 ansC3).marksAwarded = 0 := by decide

/-- C3 (amended): provided the normalised expected answer contains no
whitespace characters other than plain spaces, a short answer whose
question exists in the bank is marked correct exactly when the trimmed
lowercase submission equals the trimmed lowercase expected answer or every
whitespace-delimited token of the expected answer occurs as a substring of
the submission; full marks when correct, 0 otherwise; and a successful
submit stores exactly these graded answers and their sum as the score. -/
theorem short_answer_grading_amended (exam : Exam) (q : Question) (ans : Answer)
    (hq : findQuestion exam.questions ans.questionId = some q)
    (ht : q.qtype = .short_answer)
    (hws : ∀ ch ∈ lowerTrim q.correctAnswer, jsWhitespace ch = true → ch = ' ') :
    (gradeOne exam ans).isCorrect =
      some (specShortCorrect ans.answer q.correctAnswer) ∧
    (gradeOne exam ans).marksAwarded =
      (if specShortCorrect ans.answer q.correctAnswer then q.marks else 0) ∧
    ((gradeOne exam ans).marksAwarded = 0 ∨
      (gradeOne exam ans).marksAwarded = q.marks) ∧
    (∀ (att : Attempt) (c : Nat) (auto : Bool) (now : Nat)
        (a' : Attempt) (r : SubmitResult),
      submitAttempt (some exam) att c auto now = .ok (a', r) →
      a'.answers = att.answers.map (gradeOne exam) ∧
      a'.score = gradeScore exam att.answers) := by
  have heq := gradeShort_eq_spec ans.answer q.correctAnswer hws
  have hone : gradeOne exam ans =
      { ans with isCorrect := some (gradeShort ans.answer q.correctAnswer),
                 marksAwarded := if gradeShort ans.answer q.correctAnswer then q.marks else 0 } := by
    simp [gradeOne, hq, ht]
  refine ⟨?_, ?_, ?_, ?_⟩
  · rw [hone, heq]
  · rw [hone, heq]
  · rw [hone]
    by_cases hic : gradeShort ans.answer q.correctAnswer <;> simp [hic]
  · intro att c auto now a' r h
    obtain ⟨exam2, hex2, _, _, hans, hsc, _⟩ := submit_ok_elim h
    obtain rfl : exam2 = exam := by
      injection hex2 with h2
      exact h2.symm
    exact ⟨hans, hsc⟩

/-- Short-answer question from the spec's keyword-containment example. -/
def qS3 : Question :=
  ⟨1, .short_answer, "q", [], "photosynthesis light energy", 4, none⟩

/-- Exam holding `qS3`. -/
def exS3 : Exam := ⟨12, "t", "s", none, 99, 60, 4, 2, none, none, [qS3], acs0, true, false⟩

/-- The spec's example submission, not an exact match. -/
def ansS3 : Answer :=
  ⟨1, "plants use light energy and photosynthesis to grow", none, 0, none⟩

/-- C3 witness: the spec's keyword-containment example, marked correct with
full marks. -/
theorem short_answer_grading_amended_witness :
    (findQuestion exS3.questions ansS3.questionId = some qS3) ∧
    (∀ ch ∈ lowerTrim qS3.correctAnswer, jsWhitespace ch = true → ch = ' ') ∧
    (gradeOne exS3 ansS3).isCorrect =
      some (specShortCorrect ansS3.answer qS3.correctAnswer) ∧
    specShortCorrect ansS3.answer qS3.correctAnswer = true ∧
    (gradeOne exS3 ansS3).marksAwarded = 4 :=
  ⟨by decide, by decide,
   (short_answer_grading_amended exS3 qS3 ansS3 (by decide) rfl (by decide)).1,
   by decide, by decide⟩

/-! ### C4 -/

/-- Anti-cheat settings with a configured tab-switch limit of 0. -/
def acsZ : AntiCheatSettings := ⟨true, 0, true, true, true, true⟩

/-- Published exam whose configured tab-switch limit is 0 (falsy in JS). -/
def exZ : Exam := ⟨11, "t", "s", none, 99, 60, 5, 3, none, none, [], acsZ, true, false⟩

/-- Clean in-progress attempt at `exZ` with no violations. -/
def attZ : Attempt :=
  ⟨101, 11, 7, 0, none, none, [], 0, 5, 0, false, [], 0, [], .in_progress, false, none⟩

/-- C4 counterexample: for an exam whose configured tab-switch limit is 0,
every attempt satisfies `tabSwitches ≥ configured limit`, so the claim
requires the submit-time check to flag it; but the code replaces the falsy
0 by the default 3 and the submitted attempt is not flagged. -/
theorem submit_flag_zero_limit_counterexample :
    exZ.antiCheatSettings.tabSwitchLimit = 0 ∧
    attZ.tabSwitches ≥ exZ.antiCheatSettings.tabSwitchLimit ∧
    (Except.map (fun p : Attempt × SubmitResult => (p.1.flagged, p.1.status))
      (submitAttempt (some exZ) attZ 7 false 9)) =
      .ok (false, .submitted) := by decide

/-- C4 (amended): every successful SubmitAttempt runs a second, independent
flag check: the attempt is flagged with the submit-time reason — a string
always different from the record-violation reason, so it overwrites an
earlier one — exactly when its tab-switch count or its total violation
count reaches the effective limit (the configured tab-switch limit, or the
default 3 when the configured value is 0); otherwise flag and reason are
left as they were. -/
theorem submit_flag_check_amended (exam : Exam) (a : Attempt) (c : Nat)
    (auto : Bool) (now : Nat) (a' : Attempt) (r : SubmitResult)
    (h : submitAttempt (some exam) a c auto now = .ok (a', r)) :
    a'.flagged = (if a.tabSwitches ≥ effectiveTabLimit exam ∨
        a.violations.length ≥ effectiveTabLimit exam then true else a.flagged) ∧
    a'.flagReason = (if a.tabSwitches ≥ effectiveTabLimit exam ∨
        a.violations.length ≥ effectiveTabLimit exam then
        some (submitFlagReason a.violations.length a.tabSwitches)
      else a.flagReason) ∧
    (∀ vc ts k, submitFlagReason vc ts ≠ violationFlagReason k) ∧
    r.flagged = a'.flagged := by
  obtain ⟨exam2, hex2, _, _, _, _, _, _, _, _, hfl, hfr, _, _, _, _, hr⟩ :=
    submit_ok_elim h
  obtain rfl : exam2 = exam := by
    injection hex2 with h2
    exact h2.symm
  refine ⟨hfl, hfr, submitReason_ne_violationReason, ?_⟩
  rw [hr]

/-- In-progress attempt already flagged by the record-violation check:
3 violations, 3 tab switches against limit 3. -/
def attC4 : Attempt :=
  ⟨100, 10, 7, 0, none, none, [], 0, 5, 0, false,
   [⟨"tab_switch", "d", "medium", 1⟩, ⟨"tab_switch", "d", "medium", 1⟩,
    ⟨"tab_switch", "d", "medium", 1⟩],
   3, [], .in_progress, true, some "Auto-flagged: 3 violations"⟩

/-- The attempt stored after auto-submitting `attC4`. -/
def attC4s : Attempt :=
  ⟨100, 10, 7, 0, some 2000, some 2, [], 0, 5, 0, false,
   [⟨"tab_switch", "d", "medium", 1⟩, ⟨"tab_switch", "d", "medium", 1⟩,
    ⟨"tab_switch", "d", "medium", 1⟩],
   3, [], .auto_submitted, true,
   some "Exceeded violation limit: 3 violations, 3 tab switches"⟩

/-- The response returned for that submission. -/
def resC4s : SubmitResult := ⟨0, 5, 0, false, true⟩

/-- C4 witness: a submit at the limit fires the second check and its reason
overwrites the record-violation reason stored earlier. -/
theorem submit_flag_check_amended_witness :
    (submitAttempt (some ex0) attC4 7 true 2000 = .ok (attC4s, resC4s)) ∧
    attC4s.flagReason = (if attC4.tabSwitches ≥ effectiveTabLimit ex0 ∨
        attC4.violations.length ≥ effectiveTabLimit ex0 then
        some (submitFlagReason attC4.violations.length attC4.tabSwitches)
      else attC4.flagReason) ∧
    attC4.flagReason = some (violationFlagReason 3) ∧
    attC4s.flagReason = some (submitFlagReason 3 3) :=
  ⟨by decide,
   (submit_flag_check_amended ex0 attC4 7 true 2000 attC4s resC4s (by decide)).2.1,
   by decide, by decide⟩

/-! ### C5 -/

/-- C5 counterexample: for an exam whose configured tab-switch limit is 0,
the first recorded violation reaches `configured limit × 2 = 0`, so the
claim requires flagging; but the code replaces the falsy 0 by the default
3 (threshold 6) and the attempt is not flagged. -/
theorem violation_flag_zero_limit_counterexample :
    exZ.antiCheatSettings.tabSwitchLimit = 0 ∧
    (Except.map
      (fun p : Attempt × ViolationResult => (p.1.flagged, p.1.violations.length))
      (recordViolation (some exZ) attZ "copy_paste" "d" none 9)) =
      .ok (false, 1) ∧
    1 ≥ exZ.antiCheatSettings.tabSwitchLimit * 2 := by decide

/-- C5 (amended): every successful RecordViolation against an in-progress
attempt appends the violation to the ledger, increments the tab-switch
counter exactly when the type is `tab_switch`, and sets flagged with a
generated reason citing the new violation count exactly when that count
reaches twice the effective limit (the configured tab-switch limit, with
the default 3 substituted when the configured value is 0 or the exam is
missing); otherwise flag and reason are left as they were. -/
theorem violation_effects_amended (exam? : Option Exam) (a : Attempt)
    (vt dsc : String) (sv : Option String) (now : Nat)
    (a' : Attempt) (r : ViolationResult)
    (h : recordViolation exam? a vt dsc sv now = .ok (a', r)) :
    a.status = .in_progress ∧
    (∃ v : Violation, v.vtype = vt ∧ a'.violations = a.violations ++ [v]) ∧
    a'.tabSwitches =
      (if vt = "tab_switch" then a.tabSwitches + 1 else a.tabSwitches) ∧
    a'.flagged = (if a.violations.length + 1 ≥ tabLimitOf exam? * 2 then true
      else a.flagged) ∧
    a'.flagReason = (if a.violations.length + 1 ≥ tabLimitOf exam? * 2 then
        some (violationFlagReason (a.violations.length + 1)) else a.flagReason) ∧
    r.totalViolations = a.violations.length + 1 ∧
    r.flagged = a'.flagged := by
  obtain ⟨hst, hvio, hts, hfl, hfr, _⟩ := violation_ok_elim h
  have hresp := violation_ok_response h
  refine ⟨hst, ⟨_, rfl, hvio⟩, hts, hfl, hfr, ?_, ?_⟩
  · rw [hresp]
    simp [hvio]
  · rw [hresp]

/-- In-progress attempt with five tab-switch violations against limit 3. -/
def attC5 : Attempt :=
  ⟨100, 10, 7, 0, none, none, [], 0, 5, 0, false,
   [⟨"tab_switch", "d", "medium", 1⟩, ⟨"tab_switch", "d", "medium", 1⟩,
    ⟨"tab_switch", "d", "medium", 1⟩, ⟨"tab_switch", "d", "medium", 1⟩,
    ⟨"tab_switch", "d", "medium", 1⟩],
   5, [], .in_progress, false, none⟩

/-- The attempt stored after the sixth tab-switch violation. -/
def attC5s : Attempt :=
  ⟨100, 10, 7, 0, none, none, [], 0, 5, 0, false,
   [⟨"tab_switch", "d", "medium", 1⟩, ⟨"tab_switch", "d", "medium", 1⟩,
    ⟨"tab_switch", "d", "medium", 1⟩, ⟨"tab_switch", "d", "medium", 1⟩,
    ⟨"tab_switch", "d", "medium", 1⟩, ⟨"tab_switch", "d", "medium", 9⟩],
   6, [], .in_progress, true, some "Auto-flagged: 6 violations"⟩

/-- The counters returned for that violation. -/
def resC5s : ViolationResult := ⟨6, 6, true⟩

/-- C5 witness: the spec's example — limit 3, the sixth tab-switch
violation reaches `3 × 2` and flags the attempt with the ledger-size-based
reason. -/
theorem violation_effects_amended_witness :
    (recordViolation (some ex0) attC5 "tab_switch" "d" none 9 =
      .ok (attC5s, resC5s)) ∧
    attC5s.flagged = (if attC5.violations.length + 1 ≥ tabLimitOf (some ex0) * 2
      then true else attC5.flagged) ∧
    attC5s.flagged = true ∧
    attC5s.flagReason = some (violationFlagReason 6) ∧
    attC5s.tabSwitches = 6 :=
  ⟨by decide,
   (violation_effects_amended (some ex0) attC5 "tab_switch" "d" none 9
     attC5s resC5s (by decide)).2.2.2.1,
   by decide, by decide, by decide⟩

/-! ### C6 -/

/-- C6: for an exam that disallows multiple attempts, a StartAttempt call
for an (exam, student) pair whose stored attempt is still in progress
returns that same attempt together with the sanitised exam (questions
without `correctAnswer`/`explanation`), leaving the store unchanged —
no new attempt and no error. -/
theorem start_returns_existing_in_progress (db : List Attempt) (exam : Exam)
    (sid now nid : Nat) (a : Attempt)
    (hpub : exam.isPublished = true)
    (hws : (match exam.startTime with
      | some t => decide (now < t) | none => false) = false)
    (hwe : (match exam.endTime with
      | some t => decide (now > t) | none => false) = false)
    (hmulti : exam.allowMultipleAttempts = false)
    (hmem : a ∈ db) (hex : a.exam = exam.eid) (hstu : a.student = sid)
    (hip : a.status = .in_progress)
    (huniq : ∀ b ∈ db, b.exam = exam.eid → b.student = sid →
      b.status ≠ .cancelled → b = a) :
    startAttempt db (some exam) sid now nid = .ok (db, a, sanitizeExam exam) := by
  have hfind : db.find? (fun x => x.exam == exam.eid && x.student == sid &&
      !(x.status == AStatus.cancelled)) = some a := by
    apply find?_unique _ _ _ hmem
    · simp [hex, hstu, hip]
    · intro b hb hpb
      simp only [Bool.and_eq_true, beq_iff_eq, Bool.not_eq_true',
        beq_eq_false_iff_ne] at hpb
      exact huniq b hb hpb.1.1 hpb.1.2 hpb.2
  unfold startAttempt
  simp [hpub, hws, hwe, hmulti, hfind, hip]

/-- C6 witness: a store holding one in-progress attempt at `ex0`; starting
again returns the same attempt and the sanitised exam. -/
theorem start_returns_existing_in_progress_witness :
    (att0 ∈ [att0] ∧ att0.exam = ex0.eid ∧ att0.student = 7 ∧
      att0.status = .in_progress ∧ ex0.allowMultipleAttempts = false) ∧
    startAttempt [att0] (some ex0) 7 50 200 = .ok ([att0], att0, sanitizeExam ex0) :=
  ⟨by decide,
   start_returns_existing_in_progress [att0] ex0 7 50 200 att0 rfl rfl rfl rfl
     (by decide) rfl rfl rfl (by decide)⟩

/-! ### C7 -/

/-- C7: grading is a pure function of the answer list, and for an answer
list with at most one entry per question the total score and the multiset
of graded answers are invariant under reordering of the entries. -/
theorem grading_order_independent (exam : Exam) (l1 l2 : List Answer)
    (hperm : l1.Perm l2)
    (huniq : l1.Pairwise (fun x y => x.questionId ≠ y.questionId)) :
    gradeScore exam l1 = gradeScore exam l2 ∧
    (l1.map (gradeOne exam)).Perm (l2.map (gradeOne exam)) := by
  constructor
  · exact (hperm.map (awardedMarks exam)).sum_eq
  · exact hperm.map (gradeOne exam)

/-- C7 witness: swapping the two answers of the worked example leaves the
score unchanged. -/
theorem grading_order_independent_witness :
    ([ans1, ans2].Perm [ans2, ans1]) ∧
    gradeScore ex0 [ans1, ans2] = gradeScore ex0 [ans2, ans1] ∧
    gradeScore ex0 [ans1, ans2] = 2 :=
  ⟨by decide,
   (grading_order_independent ex0 [ans1, ans2] [ans2, ans1]
     (by decide) (by decide)).1,
   by decide⟩

/-! ### C8 -/

/-- C8: every successful SubmitAttempt stores
`percentage = round(score / totalMarks × 100)` (round half up, computed on
the exact quotient), stores 0 when the exam's total marks are 0 instead of
failing on the division, and returns that same percentage. -/
theorem submit_percentage_formula (exam : Exam) (a : Attempt) (c : Nat)
    (auto : Bool) (now : Nat) (a' : Attempt) (r : SubmitResult)
    (h : submitAttempt (some exam) a c auto now = .ok (a', r)) :
    (0 < exam.totalMarks →
      a'.percentage =
        ⌊(a'.score : ℚ) / (exam.totalMarks : ℚ) * 100 + 1 / 2⌋₊) ∧
    (exam.totalMarks = 0 → a'.percentage = 0) ∧
    r.percentage = a'.percentage := by
  obtain ⟨exam2, hex2, _, _, _, hsc, hpc, _, _, _, _, _, _, _, _, _, hr⟩ :=
    submit_ok_elim h
  obtain rfl : exam2 = exam := by
    injection hex2 with h2
    exact h2.symm
  refine ⟨?_, ?_, ?_⟩
  · intro hT
    rw [hpc, hsc]
    unfold computePercentage
    rw [if_pos hT, mathRound_eq_floor _ _ hT]
    congr 1
    push_cast
    ring
  · intro hT
    rw [hpc]
    unfold computePercentage
    rw [hT]
    rfl
  · rw [hr, hpc]

/-- C8 witness: the worked example — score 2 of 5 total marks gives a
stored percentage of 40, equal to the rounded rational formula. -/
theorem submit_percentage_formula_witness :
    (submitAttempt (some ex0) att0 7 false 1000 = .ok (att0s, res0s)) ∧
    0 < ex0.totalMarks ∧
    att0s.percentage =
      ⌊(att0s.score : ℚ) / (ex0.totalMarks : ℚ) * 100 + 1 / 2⌋₊ ∧
    att0s.percentage = 40 :=
  ⟨by decide, by decide,
   (submit_percentage_formula ex0 att0 7 false 1000 att0s res0s (by decide)).1
     (by decide),
   by decide⟩

/-! ### C9 -/

/-- C9: across every attempt-mutating route (answer save, violation
append, submit, snapshot save), a successful request never clears the
`flagged` field: once true it stays true. -/
theorem flag_monotone (op : AttemptOp) (a a' : Attempt)
    (h : applyOnAttempt op a = .ok a') (hf : a.flagged = true) :
    a'.flagged = true := by
  cases op with
  | answer c q v =>
    have he := answer_ok_elim h
    rw [he.2.2.2.2.1, hf]
  | violation e t dsc s n =>
    cases hrun : recordViolation e a t dsc s n with
    | error er =>
      have : applyOnAttempt (.violation e t dsc s n) a = .error er := by
        simp [applyOnAttempt, hrun, Except.map]
      rw [this] at h
      cases h
    | ok p =>
      have hp : recordViolation e a t dsc s n = .ok (p.1, p.2) := by
        rw [hrun]
      have ha' : a' = p.1 := by
        have : applyOnAttempt (.violation e t dsc s n) a = .ok p.1 := by
          simp [applyOnAttempt, hrun, Except.map]
        rw [this] at h
        cases h
        rfl
      obtain ⟨_, _, _, hfl, _⟩ := violation_ok_elim hp
      rw [ha', hfl]
      split <;> simp [hf]
  | submit e c au n =>
    cases hrun : submitAttempt e a c au n with
    | error er =>
      have : applyOnAttempt (.submit e c au n) a = .error er := by
        simp [applyOnAttempt, hrun, Except.map]
      rw [this] at h
      cases h
    | ok p =>
      have hp : submitAttempt e a c au n = .ok (p.1, p.2) := by
        rw [hrun]
      have ha' : a' = p.1 := by
        have : applyOnAttempt (.submit e c au n) a = .ok p.1 := by
          simp [applyOnAttempt, hrun, Except.map]
        rw [this] at h
        cases h
        rfl
      obtain ⟨exam, _, _, _, _, _, _, _, _, _, hfl, _⟩ := submit_ok_elim hp
      rw [ha', hfl]
      split <;> simp [hf]
  | snapshot u n =>
    have he := snapshot_ok_elim h
    rw [he.2.2, hf]

/-- Flagged in-progress attempt below every threshold. -/
def attC9 : Attempt :=
  ⟨100, 10, 7, 0, none, none, [], 0, 5, 0, false, [], 0, [],
   .in_progress, true, some "x"⟩

/-- The attempt stored after one more (non-flagging) violation. -/
def attC9s : Attempt :=
  ⟨100, 10, 7, 0, none, none, [], 0, 5, 0, false,
   [⟨"right_click", "d", "low", 5⟩], 0, [], .in_progress, true, some "x"⟩

/-- C9 witness: recording a further violation on an already-flagged
attempt keeps it flagged. -/
theorem flag_monotone_witness :
    (applyOnAttempt (.violation (some ex0) "right_click" "d" (some "low") 5)
      attC9 = .ok attC9s) ∧
    attC9.flagged = true ∧ attC9s.flagged = true :=
  ⟨by decide, rfl,
   flag_monotone (.violation (some ex0) "right_click" "d" (some "low") 5)
     attC9 attC9s (by decide) rfl⟩

/-! ### C10 -/

/-- C10: `GET /api/attempts/:id` returns the attempt with its exam
populated including the full questions array — each question's
`correctAnswer` and `explanation` included verbatim — to any authorized
caller, in particular to a student reading their own attempt; the answer
key is not filtered from this response. -/
theorem get_attempt_exposes_answer_key (a : Attempt) (e : Exam)
    (callerId : Nat) (role : Role)
    (hauth : role = Role.student → callerId = a.student) :
    getAttempt (some a) (some e) callerId role =
      .ok (a, some (populateExam e)) ∧
    (populateExam e).questions = e.questions := by
  constructor
  · show (if role = Role.student ∧ a.student ≠ callerId then
        (.error .forbidden : Except ApiError (Attempt × Option PopulatedExam))
      else .ok (a, (some e).map populateExam)) = .ok (a, some (populateExam e))
    rw [if_neg]
    · rfl
    · rintro ⟨hrole, hne⟩
      exact hne (hauth hrole).symm
  · rfl

/-- C10 witness: a student reading their own in-progress attempt receives
the exam's questions with the answer key present. -/
theorem get_attempt_exposes_answer_key_witness :
    att0.status = .in_progress ∧
    getAttempt (some att0) (some ex0) 7 Role.student =
      .ok (att0, some (populateExam ex0)) ∧
    (populateExam ex0).questions = ex0.questions ∧
    exQ1 ∈ (populateExam ex0).questions ∧ exQ1.correctAnswer = "B" :=
  ⟨rfl,
   (get_attempt_exposes_answer_key att0 ex0 7 Role.student (fun _ => rfl)).1,
   by decide, by decide, by decide⟩

end Examoraa
